import Mathlib

/-!
# Verification of the `Cube` ray tracer core

Shallow embedding of the repository's ray-tracing core
(`src/color.rs`, `src/sphere.rs`, `src/cube.rs`, `src/ray_intersect.rs`,
`src/texture.rs`, `src/skybox.rs`, `src/material.rs`, `src/ray_casting.rs`).

Modelling conventions:
* `f32` arithmetic is modelled as exact rational arithmetic (`ℚ`); float
  literals such as `0.3`, `0.1` and `1e-4` denote the corresponding exact
  rationals.
* `f32::sqrt` is modelled by `Rat.sqrt`, which is exact on perfect squares
  (every concrete evaluation below applies it only to perfect squares).
* The transcendental primitives (`sin`, `atan2`, `asin`, `powf`, the constant
  `PI`) and the process-wide image registries (`IMAGE_REG` in `texture.rs`,
  `SKYBOX_IMG` in `skybox.rs`) are threaded through an explicit `Env`
  parameter: a record of those primitive operations and the registry contents.
* `Rust` casts: `f32 → i32` floor casts are modelled by `Int.floor`
  (the saturation threshold is never reached in the claims considered),
  `f32 → u32` casts by truncation toward zero saturated at `0` below, and
  `f32::fract` / `f32::signum` by `rfract` / `signQ` which reproduce their
  sign behaviour (`fract` is sign-preserving, `signum 0 = 1`).
-/

namespace Raytracer

unseal Rat.add Rat.mul Rat.inv Rat.sub Nat.sqrt.iter

/-- 3-component vector over `ℚ`, embedding `nalgebra_glm::Vec3`. -/
structure Vec3 where
  x : ℚ
  y : ℚ
  z : ℚ
deriving DecidableEq, Repr

namespace Vec3

def add (a b : Vec3) : Vec3 := ⟨a.x + b.x, a.y + b.y, a.z + b.z⟩

def sub (a b : Vec3) : Vec3 := ⟨a.x - b.x, a.y - b.y, a.z - b.z⟩

def neg (a : Vec3) : Vec3 := ⟨-a.x, -a.y, -a.z⟩

def smul (q : ℚ) (a : Vec3) : Vec3 := ⟨q * a.x, q * a.y, q * a.z⟩

def dot (a b : Vec3) : ℚ := a.x * b.x + a.y * b.y + a.z * b.z

end Vec3

instance : Add Vec3 := ⟨Vec3.add⟩

instance : Sub Vec3 := ⟨Vec3.sub⟩

instance : Neg Vec3 := ⟨Vec3.neg⟩

instance : HMul ℚ Vec3 Vec3 := ⟨Vec3.smul⟩

instance : HMul Vec3 ℚ Vec3 := ⟨fun v q => Vec3.smul q v⟩

/-- Embedding of `f32::sqrt`: `Rat.sqrt` is exact on perfect squares. -/
def fsqrt (q : ℚ) : ℚ := Rat.sqrt q

/-- `nalgebra` vector norm (`.magnitude()`). -/
def Vec3.magnitude (a : Vec3) : ℚ := fsqrt (a.dot a)

/-- `nalgebra` `.normalize()`: componentwise division by the norm. -/
def Vec3.normalize (a : Vec3) : Vec3 :=
  ⟨a.x / a.magnitude, a.y / a.magnitude, a.z / a.magnitude⟩

/-- Embedding of `f32::clamp`. -/
def clampQ (q lo hi : ℚ) : ℚ := min (max q lo) hi

/-- Embedding of `f32::signum`: `1` for nonnegative input (Rust returns
`1.0` for `+0.0`), `-1` for negative input. -/
def signQ (q : ℚ) : ℚ := if q < 0 then -1 else 1

/-- Truncation toward zero, embedding Rust's `f32::trunc`. -/
def rtrunc (q : ℚ) : ℤ := if 0 ≤ q then ⌊q⌋ else ⌈q⌉

/-- Embedding of `f32::fract` (`x - x.trunc()`, sign-preserving). -/
def rfract (q : ℚ) : ℚ := q - rtrunc q

/-- Embedding of the Rust `as u32` cast on a float: truncation toward zero
saturated at `0` from below and at `2^32 - 1` from above. -/
def toU32 (q : ℚ) : ℕ := min (rtrunc q).toNat (2 ^ 32 - 1)

/-- 3-channel color over `ℚ`, embedding `color.rs::Color`. -/
structure Color where
  r : ℚ
  g : ℚ
  b : ℚ
deriving DecidableEq, Repr

namespace Color

/-- `Color::new`. -/
def new (r g b : ℚ) : Color := ⟨r, g, b⟩

/-- `Color::black`. -/
def black : Color := ⟨0, 0, 0⟩

/-- `Color::blend`: linear blend with the factor clamped to `[0, 1]`. -/
def blend (self other : Color) (factor : ℚ) : Color :=
  let f := clampQ factor 0 1
  ⟨self.r * (1 - f) + other.r * f,
   self.g * (1 - f) + other.g * f,
   self.b * (1 - f) + other.b * f⟩

/-- `impl Add for Color`. -/
def add (a b : Color) : Color := ⟨a.r + b.r, a.g + b.g, a.b + b.b⟩

/-- `impl Mul<f32> for Color`. -/
def mulScalar (a : Color) (s : ℚ) : Color := ⟨a.r * s, a.g * s, a.b * s⟩

end Color

instance : Add Color := ⟨Color.add⟩

instance : HMul Color ℚ Color := ⟨Color.mulScalar⟩

/-- An in-memory decoded bitmap (an `image::DynamicImage` after decoding):
its dimensions and a pixel accessor (`get_pixel`, channels already widened
to floats as the source does with `px[i] as f32`). -/
structure Image where
  width : ℕ
  height : ℕ
  pix : ℕ → ℕ → Color

/-- `texture.rs::Axis`. -/
inductive Axis where
  | U : Axis
  | V : Axis
deriving DecidableEq, Repr

/-- `texture.rs::Texture`. -/
inductive Texture where
  | checker (color1 color2 : Color) (scale : ℚ)
  | stripes (color1 color2 : Color) (scale : ℚ) (axis : Axis)
  | marbleProc (color1 color2 : Color) (scale : ℚ)
  | image (id : ℕ) (scale : ℚ)
deriving Repr

/-- The ambient execution environment of the renderer: the `f32`
transcendental primitives it calls, and the contents of the process-wide
image registries (`IMAGE_REG` of `texture.rs` and the memoized `SKYBOX_IMG`
of `skybox.rs`, `none` meaning unregistered / failed-or-missing load). -/
structure Env where
  sinf : ℚ → ℚ
  atan2f : ℚ → ℚ → ℚ
  asinf : ℚ → ℚ
  powf : ℚ → ℚ → ℚ
  pif : ℚ
  imageReg : ℕ → Option Image
  skyImg : Option Image

/-- `Texture::sample` (`texture.rs`). Rust `%` on `i32` returns `0` exactly
on even inputs, so the `s % 2 == 0` tests are modelled with `Int.emod`. -/
def Texture.sample (env : Env) : Texture → ℚ → ℚ → Color
  | .checker color1 color2 scale, u, v =>
      let s : ℤ := ⌊u * scale⌋ + ⌊v * scale⌋
      if s % 2 = 0 then color1 else color2
  | .stripes color1 color2 scale axis, u, v =>
      let t : ℚ := match axis with | .U => u | .V => v
      if (⌊t * scale⌋ : ℤ) % 2 = 0 then color1 else color2
  | .marbleProc color1 color2 scale, u, v =>
      let s := (env.sinf (u * scale) + env.sinf (v * scale * (3/2))) * (1/2)
      let t := (1/2) * (s + 1)
      color1.blend color2 t
  | .image id scale, u, v =>
      match env.imageReg id with
      | some img =>
          let uu := rfract (u * scale)
          let vv := rfract (v * scale)
          let x := min (toU32 (uu * img.width)) (img.width - 1)
          let y := min (toU32 (vv * img.height)) (img.height - 1)
          img.pix x y
      | none => Color.new 200 200 200

/-- `material.rs::Material`. -/
structure Material where
  diffuse : Color
  specular : ℚ
  albedo0 : ℚ
  albedo1 : ℚ
  is_crystal : Bool
  texture : Option Texture
  reflectivity : ℚ
  transparency : ℚ
  ior : ℚ
  roughness : ℚ
  emission : Option Color

/-- `Material::black`. -/
def Material.black : Material :=
  { diffuse := Color.new 0 0 0
    specular := 0
    albedo0 := 0
    albedo1 := 0
    is_crystal := false
    texture := none
    reflectivity := 0
    transparency := 0
    ior := 1
    roughness := 0
    emission := none }

/-- `ray_intersect.rs::Intersect`. -/
structure Intersect where
  point : Vec3
  normal : Vec3
  distance : ℚ
  is_intersecting : Bool
  material : Material
  uv : Option (ℚ × ℚ)

/-- `Intersect::new` (also applies `with_uv` when a `uv` pair is given). -/
def Intersect.mkHit (point normal : Vec3) (distance : ℚ) (material : Material)
    (uv : Option (ℚ × ℚ)) : Intersect :=
  { point := point
    normal := normal
    distance := distance
    is_intersecting := true
    material := material
    uv := uv }

/-- `Intersect::empty`. -/
def Intersect.empty : Intersect :=
  { point := ⟨0, 0, 0⟩
    normal := ⟨0, 0, 0⟩
    distance := 0
    is_intersecting := false
    material := Material.black
    uv := none }

/-- `light.rs::Light` (fields as used by the shading engine; `intensity`
is stored but never read by `cast_ray`/`cast_shadow`). -/
structure Light where
  position : Vec3
  color : Color
  intensity : ℚ

/-- `sphere.rs::Sphere`. -/
structure Sphere where
  center : Vec3
  radius : ℚ
  material : Material

/-- `Sphere::ray_intersect` (`sphere.rs`). The spherical `uv` coordinates
use the `atan2`/`asin`/`PI` primitives of the environment. -/
def Sphere.ray_intersect (env : Env) (s : Sphere) (ray_origin ray_direction : Vec3) :
    Intersect :=
  let l := s.center - ray_origin
  let tca := l.dot ray_direction
  if tca < 0 then Intersect.empty
  else
    let d2 := l.dot l - tca * tca
    let radius2 := s.radius * s.radius
    if d2 > radius2 then Intersect.empty
    else
      let thc := fsqrt (radius2 - d2)
      let t0 := tca - thc
      let t1 := tca + thc
      let t := if t0 < 0 then t1 else t0
      if t < 0 then Intersect.empty
      else
        let point := ray_origin + ray_direction * t
        let normal := (point - s.center).normalize
        let dir := (point - s.center).normalize
        let u := 1/2 + env.atan2f dir.z dir.x / (2 * env.pif)
        let v := 1/2 - env.asinf dir.y / env.pif
        Intersect.mkHit point normal t s.material (some (u, v))

/-- `cube.rs::Cube`. -/
structure Cube where
  center : Vec3
  size : ℚ
  material : Material

/-- The face-normal selection of `Cube::ray_intersect` (`cube.rs`, lines
45–56), applied to the local hit point `point - center`. -/
def cubeNormal (lp : Vec3) : Vec3 :=
  let abs_x := |lp.x|
  let abs_y := |lp.y|
  let abs_z := |lp.z|
  if abs_x > abs_y ∧ abs_x > abs_z then ⟨signQ lp.x, 0, 0⟩
  else if abs_y > abs_z then ⟨0, signQ lp.y, 0⟩
  else ⟨0, 0, signQ lp.z⟩

/-- `Cube::ray_intersect` (`cube.rs`): axis-aligned slab test.

Over `ℚ` the reciprocal of a zero direction component is `0` rather than the
IEEE infinity the Rust code produces; every concrete evaluation below uses
directions with all components nonzero, where the embedding is exact. -/
def Cube.ray_intersect (c : Cube) (ray_origin ray_direction : Vec3) : Intersect :=
  let half_size := c.size / 2
  let vmin := c.center - (⟨half_size, half_size, half_size⟩ : Vec3)
  let vmax := c.center + (⟨half_size, half_size, half_size⟩ : Vec3)
  let inv_dir : Vec3 := ⟨1 / ray_direction.x, 1 / ray_direction.y, 1 / ray_direction.z⟩
  let t1 := (vmin.x - ray_origin.x) * inv_dir.x
  let t2 := (vmax.x - ray_origin.x) * inv_dir.x
  let t3 := (vmin.y - ray_origin.y) * inv_dir.y
  let t4 := (vmax.y - ray_origin.y) * inv_dir.y
  let t5 := (vmin.z - ray_origin.z) * inv_dir.z
  let t6 := (vmax.z - ray_origin.z) * inv_dir.z
  let tmin := max (max (min t1 t2) (min t3 t4)) (min t5 t6)
  let tmax := min (min (max t1 t2) (max t3 t4)) (max t5 t6)
  if tmax < 0 ∨ tmin > tmax then Intersect.empty
  else
    let t := if tmin > 0 then tmin else tmax
    if t ≤ 0 then Intersect.empty
    else
      let point := ray_origin + ray_direction * t
      let local_point := point - c.center
      let normal := cubeNormal local_point
      let half := half_size
      let uv : ℚ × ℚ :=
        if |normal.x| > 0 then
          ((local_point.z + half) / (2 * half), (local_point.y + half) / (2 * half))
        else if |normal.y| > 0 then
          ((local_point.x + half) / (2 * half), (local_point.z + half) / (2 * half))
        else
          ((local_point.x + half) / (2 * half), (local_point.y + half) / (2 * half))
      Intersect.mkHit point normal t c.material (some uv)

/-- The closed set of scene primitives (`Box<dyn RayIntersect>` instances
pushed into the object list by `main.rs`: spheres and cubes). -/
inductive Object where
  | sphere (s : Sphere)
  | cube (c : Cube)

/-- Dynamic dispatch of the `RayIntersect` trait. -/
def Object.ray_intersect (env : Env) (o : Object) (ray_origin ray_direction : Vec3) :
    Intersect :=
  match o with
  | .sphere s => s.ray_intersect env ray_origin ray_direction
  | .cube c => c.ray_intersect ray_origin ray_direction

/-- `Skybox::sample_color` (`skybox.rs`): equirectangular lookup into the
memoized panoramic image when it loaded, vertical gradient fallback
otherwise. -/
def skyboxSample (env : Env) (direction : Vec3) : Color :=
  match env.skyImg with
  | some img =>
      let dir := direction.normalize
      let u := 1/2 + env.atan2f dir.x dir.z / (2 * env.pif)
      let v := 1/2 + env.asinf dir.y / env.pif
      let x := min (toU32 (rfract u * img.width)) (img.width - 1)
      let y := min (toU32 ((1 - rfract v) * img.height)) (img.height - 1)
      img.pix x y
  | none =>
      let t := (1/2) * (direction.y + 1)
      let base := Color.new 135 206 235
      let horizon := Color.new 255 255 255
      horizon.blend base t

/-- `ray_casting.rs::SHADOW_BIAS` (`1e-4`). -/
def SHADOW_BIAS : ℚ := 1 / 10000

/-- `ray_casting.rs::MAX_RAY_DEPTH`. -/
def MAX_RAY_DEPTH : ℕ := 3

/-- `ray_casting.rs::reflect`. -/
def reflect (incident normal : Vec3) : Vec3 :=
  incident - (2 * incident.dot normal) * normal

/-- `ray_casting.rs::refract`: Snell refraction, `none` on total internal
reflection (`k < 0`). -/
def refract (incident normal : Vec3) (eta : ℚ) : Option Vec3 :=
  let cosi := clampQ (-(incident.dot normal)) (-1) 1
  let cosi_local := if cosi < 0 then -cosi else cosi
  let n := if cosi < 0 then -normal else normal
  let etai := if cosi < 0 then eta else 1
  let etat := if cosi < 0 then 1 else eta
  let eta_ratio := etai / etat
  let k := 1 - eta_ratio * eta_ratio * (1 - cosi_local * cosi_local)
  if k < 0 then none
  else some (eta_ratio * incident + (eta_ratio * cosi_local - fsqrt k) * n)

/-- Shadow-ray direction of `cast_shadow`: a unit vector from the hit point
toward the light. -/
def lightDirOf (inter : Intersect) (light : Light) : Vec3 :=
  (light.position - inter.point).normalize

/-- Distance from the hit point to the light in `cast_shadow`. -/
def lightDistOf (inter : Intersect) (light : Light) : ℚ :=
  (light.position - inter.point).magnitude

/-- Shadow-ray origin of `cast_shadow`: the hit point offset by
`SHADOW_BIAS` along the normal, pushed to the side the light lies on. -/
def shadowOriginOf (inter : Intersect) (light : Light) : Vec3 :=
  let offset_normal := inter.normal * SHADOW_BIAS
  if (lightDirOf inter light).dot inter.normal < 0 then inter.point - offset_normal
  else inter.point + offset_normal

/-- The early-returning occluder loop of `cast_shadow`: `0.3` at the first
primitive intersecting the shadow ray closer than the light, else `1.0`. -/
def shadowScan (env : Env) (origin dir : Vec3) (light_distance : ℚ) :
    List Object → ℚ
  | [] => 1
  | obj :: rest =>
      let shadow_i := Object.ray_intersect env obj origin dir
      if shadow_i.is_intersecting = true ∧ shadow_i.distance < light_distance then 3/10
      else shadowScan env origin dir light_distance rest

/-- `ray_casting.rs::cast_shadow`. -/
def cast_shadow (env : Env) (inter : Intersect) (light : Light)
    (objects : List Object) : ℚ :=
  shadowScan env (shadowOriginOf inter light) (lightDirOf inter light)
    (lightDistOf inter light) objects

/-- The guard of the closest-intersection loop of `cast_ray`: `z` is the
best distance so far (`none` standing for the initial `f32::INFINITY`,
which every finite distance compares below). -/
def beatsBest (i : Intersect) (z : Option ℚ) : Prop :=
  i.is_intersecting = true ∧ (match z with
    | none => True
    | some zv => i.distance < zv)

instance (i : Intersect) (z : Option ℚ) : Decidable (beatsBest i z) := by
  unfold beatsBest
  cases z <;> exact instDecidableAnd

/-- The closest-intersection loop of `cast_ray`. -/
def closestScan (env : Env) (origin dir : Vec3) :
    List Object → Intersect → Option ℚ → Intersect
  | [], closest, _ => closest
  | obj :: rest, closest, z =>
      let i := Object.ray_intersect env obj origin dir
      if beatsBest i z then
        closestScan env origin dir rest i (some i.distance)
      else
        closestScan env origin dir rest closest z

/-- The nearest hit `cast_ray` keeps after its linear scan of the scene. -/
def closestHit (env : Env) (objects : List Object) (origin dir : Vec3) : Intersect :=
  closestScan env origin dir objects Intersect.empty none

/-- The base diffuse color of `cast_ray`: texture sample at the fractional
`uv` when the material has a texture and the hit carries `uv`, else the
stored diffuse color. -/
def baseDiffuse (env : Env) (closest : Intersect) : Color :=
  match closest.material.texture, closest.uv with
  | some tex, some (u, v) => tex.sample env (rfract u) (rfract v)
  | _, _ => closest.material.diffuse

/-- One light's shadowed diffuse term in the local-illumination loop of
`cast_ray`. -/
def diffuseTerm (env : Env) (closest : Intersect) (objects : List Object)
    (light : Light) : Color :=
  let light_dir := (light.position - closest.point).normalize
  let intensity := cast_shadow env closest light objects
  let diffuse_strength := max (closest.normal.dot light_dir) 0
  baseDiffuse env closest * diffuse_strength * intensity

/-- One light's shadowed specular term in the local-illumination loop of
`cast_ray`. -/
def specularTerm (env : Env) (closest : Intersect) (objects : List Object)
    (ray_direction : Vec3) (light : Light) : Color :=
  let light_dir := (light.position - closest.point).normalize
  let intensity := cast_shadow env closest light objects
  let reflect_dir := reflect (-light_dir) closest.normal
  let view_dir := (-ray_direction).normalize
  light.color * closest.material.albedo1
    * env.powf (max (view_dir.dot reflect_dir) 0) closest.material.specular
    * intensity

/-- The local illumination term of `cast_ray`: the flat ambient term
`base_diffuse * 0.1`, then `local = local + diffuse + specular` once per
light. -/
def localColor (env : Env) (closest : Intersect) (lights : List Light)
    (objects : List Object) (ray_direction : Vec3) : Color :=
  lights.foldl
    (fun acc light => acc + diffuseTerm env closest objects light
      + specularTerm env closest objects ray_direction light)
    (baseDiffuse env closest * (1/10 : ℚ))

/-- The bias-offset secondary-ray origin used by the reflection and
refraction branches of `cast_ray`. -/
def biasOrigin (point normal dir : Vec3) : Vec3 :=
  let bias := normal * SHADOW_BIAS
  if dir.dot normal < 0 then point - bias else point + bias

/-- Adds the material's emission color when present (last step of
`cast_ray`). -/
def emissionAdd (m : Material) (c : Color) : Color :=
  match m.emission with
  | some em => c + em
  | none => c

/-- The body of `ray_casting.rs::cast_ray`, with the recursion bounded by a
structural fuel argument so that the definition evaluates by kernel
reduction. `cast_ray` below instantiates `fuel := MAX_RAY_DEPTH + 1 - depth`;
under that instantiation the `fuel = 0` base case is reached exactly when
`depth > MAX_RAY_DEPTH`, where it returns the same skybox color the source's
depth guard returns, so the wrapper agrees with the source at every depth
(`cast_ray_eq` below proves the source-shaped unfolding). -/
def castRayAux (env : Env) (objects : List Object) (lights : List Light) :
    ℕ → Vec3 → Vec3 → ℕ → Color
  | 0, _, ray_direction, _ => skyboxSample env ray_direction
  | fuel + 1, ray_origin, ray_direction, depth =>
    if depth > MAX_RAY_DEPTH then skyboxSample env ray_direction
    else
      let closest := closestHit env objects ray_origin ray_direction
      if closest.is_intersecting = false then skyboxSample env ray_direction
      else
        let local_c := localColor env closest lights objects ray_direction
        let r := clampQ closest.material.reflectivity 0 1
        let t := clampQ closest.material.transparency 0 1
        let base_w := max (1 - r - t) 0
        let refl_col :=
          if 0 < r ∧ depth < MAX_RAY_DEPTH then
            let dir := (reflect ray_direction.normalize closest.normal).normalize
            castRayAux env objects lights fuel
              (biasOrigin closest.point closest.normal dir) dir (depth + 1)
          else Color.black
        let refr_col :=
          if 0 < t ∧ depth < MAX_RAY_DEPTH then
            let eta := max closest.material.ior 1
            match refract ray_direction.normalize closest.normal eta with
            | some dir =>
                castRayAux env objects lights fuel
                  (biasOrigin closest.point closest.normal dir) dir.normalize (depth + 1)
            | none => Color.black
          else Color.black
        emissionAdd closest.material (local_c * base_w + refl_col * r + refr_col * t)

/-- `ray_casting.rs::cast_ray`: the recursive shading engine. -/
def cast_ray (env : Env) (objects : List Object) (lights : List Light)
    (ray_origin ray_direction : Vec3) (depth : ℕ) : Color :=
  castRayAux env objects lights (MAX_RAY_DEPTH + 1 - depth) ray_origin ray_direction depth

/-- The reflection contribution of `cast_ray` at a given call: the
recursively traced mirror ray when reflectivity is positive and depth has
headroom, black otherwise. -/
def reflectionComponent (env : Env) (objects : List Object) (lights : List Light)
    (ray_origin ray_direction : Vec3) (depth : ℕ) : Color :=
  let closest := closestHit env objects ray_origin ray_direction
  let r := clampQ closest.material.reflectivity 0 1
  if 0 < r ∧ depth < MAX_RAY_DEPTH then
    let dir := (reflect ray_direction.normalize closest.normal).normalize
    cast_ray env objects lights (biasOrigin closest.point closest.normal dir) dir (depth + 1)
  else Color.black

/-- The refraction contribution of `cast_ray` at a given call: the
recursively traced Snell ray when transparency is positive, depth has
headroom and there is no total internal reflection, black otherwise. -/
def refractionComponent (env : Env) (objects : List Object) (lights : List Light)
    (ray_origin ray_direction : Vec3) (depth : ℕ) : Color :=
  let closest := closestHit env objects ray_origin ray_direction
  let t := clampQ closest.material.transparency 0 1
  if 0 < t ∧ depth < MAX_RAY_DEPTH then
    let eta := max closest.material.ior 1
    match refract ray_direction.normalize closest.normal eta with
    | some dir =>
        cast_ray env objects lights (biasOrigin closest.point closest.normal dir)
          dir.normalize (depth + 1)
    | none => Color.black
  else Color.black

/-- Source-shaped unfolding of `cast_ray`: the depth guard, the miss case,
and the composite of local illumination, reflection, refraction and
emission, with both secondary rays traced at `depth + 1`. -/
theorem cast_ray_eq (env : Env) (objects : List Object) (lights : List Light)
    (ray_origin ray_direction : Vec3) (depth : ℕ) :
    cast_ray env objects lights ray_origin ray_direction depth =
      if depth > MAX_RAY_DEPTH then skyboxSample env ray_direction
      else
        let closest := closestHit env objects ray_origin ray_direction
        if closest.is_intersecting = false then skyboxSample env ray_direction
        else
          let r := clampQ closest.material.reflectivity 0 1
          let t := clampQ closest.material.transparency 0 1
          let base_w := max (1 - r - t) 0
          emissionAdd closest.material
            (localColor env closest lights objects ray_direction * base_w
              + reflectionComponent env objects lights ray_origin ray_direction depth * r
              + refractionComponent env objects lights ray_origin ray_direction depth * t) := by
  by_cases hd : depth > MAX_RAY_DEPTH
  · have h0 : MAX_RAY_DEPTH + 1 - depth = 0 := by
      revert hd
      simp only [MAX_RAY_DEPTH]
      omega
    rw [cast_ray, h0, if_pos hd, castRayAux]
  · have h1 : MAX_RAY_DEPTH + 1 - depth = (MAX_RAY_DEPTH - depth) + 1 := by
      revert hd
      simp only [MAX_RAY_DEPTH]
      omega
    rw [cast_ray, h1, castRayAux, if_neg hd, if_neg hd]
    simp only [reflectionComponent, refractionComponent, cast_ray, Nat.succ_sub_succ]

/-- Fuel-instrumented variant of `cast_ray`: identical control flow, but
every recursive call must pay one unit of fuel, and a recursion site with no
fuel left yields `none`. `castRayFuel ... depth fuel = some c` therefore
certifies that every `depth` argument in the call tree stays below
`depth + fuel + 1` and that a color is returned. -/
def castRayFuel (env : Env) (objects : List Object) (lights : List Light) :
    ℕ → Vec3 → Vec3 → ℕ → Option Color
  | fuel, ray_origin, ray_direction, depth =>
    if depth > MAX_RAY_DEPTH then some (skyboxSample env ray_direction)
    else
      let closest := closestHit env objects ray_origin ray_direction
      if closest.is_intersecting = false then some (skyboxSample env ray_direction)
      else
        let local_c := localColor env closest lights objects ray_direction
        let r := clampQ closest.material.reflectivity 0 1
        let t := clampQ closest.material.transparency 0 1
        let base_w := max (1 - r - t) 0
        let reflOpt : Option Color :=
          if 0 < r ∧ depth < MAX_RAY_DEPTH then
            match fuel with
            | 0 => none
            | f + 1 =>
                let dir := (reflect ray_direction.normalize closest.normal).normalize
                castRayFuel env objects lights f
                  (biasOrigin closest.point closest.normal dir) dir (depth + 1)
          else some Color.black
        let refrOpt : Option Color :=
          if 0 < t ∧ depth < MAX_RAY_DEPTH then
            let eta := max closest.material.ior 1
            match refract ray_direction.normalize closest.normal eta with
            | some dir =>
                match fuel with
                | 0 => none
                | f + 1 =>
                    castRayFuel env objects lights f
                      (biasOrigin closest.point closest.normal dir) dir.normalize (depth + 1)
            | none => some Color.black
          else some Color.black
        match reflOpt, refrOpt with
        | some refl_col, some refr_col =>
            some (emissionAdd closest.material
              (local_c * base_w + refl_col * r + refr_col * t))
        | _, _ => none

/-! ## Test fixtures -/

/-- Concrete environment for closed evaluations: transcendental primitives
instantiated arbitrarily (no evaluation below depends on them), both image
registries empty. -/
def testEnv : Env :=
  { sinf := fun _ => 0
    atan2f := fun _ _ => 0
    asinf := fun _ => 0
    powf := fun _ _ => 0
    pif := 0
    imageReg := fun _ => none
    skyImg := none }

/-- A plain untextured diffuse material. -/
def matPlain : Material :=
  { diffuse := Color.new 10 20 30
    specular := 0
    albedo0 := 4/5
    albedo1 := 1/5
    is_crystal := false
    texture := none
    reflectivity := 0
    transparency := 0
    ior := 1
    roughness := 0
    emission := none }

/-! ## Helper lemmas -/

theorem Vec3.sub_def (a b : Vec3) : a - b = ⟨a.x - b.x, a.y - b.y, a.z - b.z⟩ := rfl

theorem Vec3.add_def (a b : Vec3) : a + b = ⟨a.x + b.x, a.y + b.y, a.z + b.z⟩ := rfl

theorem Vec3.neg_def (a : Vec3) : -a = ⟨-a.x, -a.y, -a.z⟩ := rfl

theorem Vec3.mulQ_def (v : Vec3) (q : ℚ) : v * q = ⟨q * v.x, q * v.y, q * v.z⟩ := rfl

theorem Vec3.qMul_def (q : ℚ) (v : Vec3) : q * v = ⟨q * v.x, q * v.y, q * v.z⟩ := rfl

theorem Vec3.dot_def (a b : Vec3) : a.dot b = a.x * b.x + a.y * b.y + a.z * b.z := rfl

/-- `Rat.sqrt` is exact on squares of nonnegative rationals. -/
theorem fsqrt_mul_self (q : ℚ) (hq : 0 ≤ q) : fsqrt (q * q) = q := by
  rw [fsqrt, Rat.sqrt_eq, abs_of_nonneg hq]

/-- `shadowScan` returns `0.3` or `1.0`, and returns `0.3` exactly when some
primitive occludes the shadow ray before the light. -/
theorem shadowScan_spec (env : Env) (origin dir : Vec3) (light_distance : ℚ) :
    ∀ objs : List Object,
      (shadowScan env origin dir light_distance objs = 3/10 ∨
        shadowScan env origin dir light_distance objs = 1)
      ∧ (shadowScan env origin dir light_distance objs = 3/10 ↔
          ∃ obj ∈ objs,
            (Object.ray_intersect env obj origin dir).is_intersecting = true ∧
            (Object.ray_intersect env obj origin dir).distance < light_distance) := by
  intro objs
  induction objs with
  | nil =>
      refine ⟨Or.inr rfl, ?_⟩
      constructor
      · intro h1
        rw [show shadowScan env origin dir light_distance [] = 1 from rfl] at h1
        exact absurd h1 (by decide)
      · rintro ⟨obj, hmem, -⟩
        exact absurd hmem (List.not_mem_nil obj)
  | cons obj rest ih =>
      by_cases hobj : (Object.ray_intersect env obj origin dir).is_intersecting = true ∧
          (Object.ray_intersect env obj origin dir).distance < light_distance
      · refine ⟨Or.inl ?_, ?_⟩
        · simp [shadowScan, hobj]
        · simp [shadowScan, hobj]
      · have step : shadowScan env origin dir light_distance (obj :: rest)
            = shadowScan env origin dir light_distance rest := by
          simp [shadowScan, hobj]
        refine ⟨step ▸ ih.1, ?_⟩
        rw [step, ih.2]
        simp [hobj]

/-- If every object misses the ray, the closest-hit scan keeps its
accumulator. -/
theorem closestScan_all_miss (env : Env) (origin dir : Vec3) :
    ∀ (objs : List Object) (closest : Intersect) (z : Option ℚ),
      (∀ obj ∈ objs, (Object.ray_intersect env obj origin dir).is_intersecting = false) →
      closestScan env origin dir objs closest z = closest := by
  intro objs
  induction objs with
  | nil => intro closest z _; rfl
  | cons obj rest ih =>
      intro closest z h
      have hobj : (Object.ray_intersect env obj origin dir).is_intersecting = false :=
        h obj (List.mem_cons_self obj rest)
      have hnb : ¬ beatsBest (Object.ray_intersect env obj origin dir) z := by
        intro hb
        have h1 := hb.1
        rw [hobj] at h1
        exact Bool.false_ne_true h1
      simp only [closestScan, if_neg hnb]
      exact ih closest z fun o ho => h o (List.mem_cons_of_mem obj ho)

/-! ## Claims -/

/-- **C1.** For every scene and every ray, `cast_ray` terminates: a call at
depth `d` spawns at most one reflection and one refraction call, both at
depth `d + 1` and only when `d < MAX_RAY_DEPTH`, so with any fuel budget
covering `MAX_RAY_DEPTH - depth` further levels the instrumented recursion
never exhausts its fuel and always produces the color `cast_ray` returns. -/
theorem C1_recursion_depth_bounded (env : Env) (objects : List Object)
    (lights : List Light) :
    ∀ (fuel depth : ℕ) (ray_origin ray_direction : Vec3),
      MAX_RAY_DEPTH ≤ depth + fuel →
      castRayFuel env objects lights fuel ray_origin ray_direction depth
        = some (cast_ray env objects lights ray_origin ray_direction depth) := by
  intro fuel
  induction fuel with
  | zero =>
      intro depth ray_origin ray_direction h
      have hd3 : ¬ depth < MAX_RAY_DEPTH := by omega
      rw [castRayFuel, cast_ray_eq]
      by_cases hd : depth > MAX_RAY_DEPTH
      · rw [if_pos hd, if_pos hd]
      · rw [if_neg hd, if_neg hd]
        simp only [reflectionComponent, refractionComponent, hd3, and_false, if_false]
        rw [apply_ite Option.some]
  | succ f ih =>
      intro depth ray_origin ray_direction h
      rw [castRayFuel, cast_ray_eq]
      by_cases hd : depth > MAX_RAY_DEPTH
      · rw [if_pos hd, if_pos hd]
      · rw [if_neg hd, if_neg hd]
        simp only [reflectionComponent, refractionComponent]
        by_cases hdlt : depth < MAX_RAY_DEPTH
        · by_cases hrpos : 0 < clampQ (closestHit env objects ray_origin
              ray_direction).material.reflectivity 0 1
          · by_cases htpos : 0 < clampQ (closestHit env objects ray_origin
                ray_direction).material.transparency 0 1
            · rcases href : refract ray_direction.normalize
                  (closestHit env objects ray_origin ray_direction).normal
                  (max (closestHit env objects ray_origin ray_direction).material.ior 1) with
                - | dir
              · simp only [hdlt, hrpos, htpos, and_true, if_true, href,
                  ih (depth + 1) _ _ (by omega)]
                rw [apply_ite Option.some]
              · simp only [hdlt, hrpos, htpos, and_true, if_true, href,
                  ih (depth + 1) _ _ (by omega)]
                rw [apply_ite Option.some]
            · simp only [hdlt, hrpos, htpos, and_true, if_true, if_false,
                ih (depth + 1) _ _ (by omega)]
              rw [apply_ite Option.some]
          · by_cases htpos : 0 < clampQ (closestHit env objects ray_origin
                ray_direction).material.transparency 0 1
            · rcases href : refract ray_direction.normalize
                  (closestHit env objects ray_origin ray_direction).normal
                  (max (closestHit env objects ray_origin ray_direction).material.ior 1) with
                - | dir
              · simp only [hdlt, hrpos, htpos, and_true, if_true, if_false, href]
                rw [apply_ite Option.some]
              · simp only [hdlt, hrpos, htpos, and_true, if_true, if_false, href,
                  ih (depth + 1) _ _ (by omega)]
                rw [apply_ite Option.some]
            · simp only [hdlt, hrpos, htpos, and_true, if_false]
              rw [apply_ite Option.some]
        · simp only [hdlt, and_false, if_false]
          rw [apply_ite Option.some]

/-- Witness for C1: at a concrete one-cube scene, fuel `MAX_RAY_DEPTH`
suffices at depth 0. -/
theorem C1_recursion_depth_bounded_witness :
    castRayFuel testEnv [Object.cube ⟨⟨0, 0, 0⟩, 2, matPlain⟩] [] 3 ⟨5, 5, 5⟩ ⟨1, 1, 1⟩ 0
      = some (cast_ray testEnv [Object.cube ⟨⟨0, 0, 0⟩, 2, matPlain⟩] [] ⟨5, 5, 5⟩ ⟨1, 1, 1⟩ 0) :=
  C1_recursion_depth_bounded testEnv [Object.cube ⟨⟨0, 0, 0⟩, 2, matPlain⟩] [] 3 0
    ⟨5, 5, 5⟩ ⟨1, 1, 1⟩ (by decide)

/-- **C9.** For every `u`, `v`, `scale`, and every id not registered in the
image registry, sampling an `Image` texture returns the fixed neutral gray
color `(200, 200, 200)` (and, being a total function into `Color`, never
signals an error to the caller). -/
theorem C9_unregistered_image_gray (env : Env) (id : ℕ) (scale u v : ℚ)
    (h : env.imageReg id = none) :
    (Texture.image id scale).sample env u v = Color.new 200 200 200 := by
  simp [Texture.sample, h]

/-- Witness for C9 at a concrete unregistered id. -/
theorem C9_unregistered_image_gray_witness :
    (Texture.image 7 2).sample testEnv (1/3) (5/2) = Color.new 200 200 200 :=
  C9_unregistered_image_gray testEnv 7 2 (1/3) (5/2) rfl

/-- **C4.** For every intersection record, light, and primitive list, the
shadow factor computed by `cast_shadow` is `0.3` if some primitive
intersects the bias-offset ray from the hit point toward the light at a
distance strictly less than the distance to the light, and `1.0` otherwise;
no other value is ever returned. -/
theorem C4_shadow_factor (env : Env) (inter : Intersect) (light : Light)
    (objects : List Object) :
    (cast_shadow env inter light objects = 3/10 ∨
      cast_shadow env inter light objects = 1)
    ∧ (cast_shadow env inter light objects = 3/10 ↔
        ∃ obj ∈ objects,
          (Object.ray_intersect env obj (shadowOriginOf inter light)
              (lightDirOf inter light)).is_intersecting = true ∧
          (Object.ray_intersect env obj (shadowOriginOf inter light)
              (lightDirOf inter light)).distance < lightDistOf inter light) :=
  shadowScan_spec env (shadowOriginOf inter light) (lightDirOf inter light)
    (lightDistOf inter light) objects

/-- **C2.** For every ray called at depth 0 such that no primitive in the
scene reports an intersection for that ray, `cast_ray` returns exactly the
value of the environment sampler `Skybox::sample_color` applied to that
direction. -/
theorem C2_miss_returns_skybox (env : Env) (objects : List Object)
    (lights : List Light) (ray_origin ray_direction : Vec3)
    (h : ∀ obj ∈ objects,
      (Object.ray_intersect env obj ray_origin ray_direction).is_intersecting = false) :
    cast_ray env objects lights ray_origin ray_direction 0
      = skyboxSample env ray_direction := by
  have hc : closestHit env objects ray_origin ray_direction = Intersect.empty :=
    closestScan_all_miss env ray_origin ray_direction objects Intersect.empty none h
  rw [cast_ray_eq, hc]
  norm_num [Intersect.empty, MAX_RAY_DEPTH]

/-- Witness for C2: a concrete cube missed by a concrete ray. -/
theorem C2_miss_returns_skybox_witness :
    cast_ray testEnv [Object.cube ⟨⟨0, 0, 0⟩, 2, matPlain⟩] [] ⟨5, 5, 5⟩ ⟨1, 1, 1⟩ 0
      = skyboxSample testEnv ⟨1, 1, 1⟩ :=
  C2_miss_returns_skybox testEnv [Object.cube ⟨⟨0, 0, 0⟩, 2, matPlain⟩] []
    ⟨5, 5, 5⟩ ⟨1, 1, 1⟩ (by decide)

/-- **C5 (amended).** Every reported cube hit has strictly positive
distance; every reported sphere hit has nonnegative distance (the sphere
test accepts `t = 0` when the ray origin lies on the sphere, see the
counterexample, so strict positivity fails there). -/
theorem C5_hit_distance_sign (env : Env) (s : Sphere) (c : Cube) (o d : Vec3) :
    ((s.ray_intersect env o d).is_intersecting = true →
      0 ≤ (s.ray_intersect env o d).distance)
    ∧ ((c.ray_intersect o d).is_intersecting = true →
      0 < (c.ray_intersect o d).distance) := by
  constructor
  · simp only [Sphere.ray_intersect]
    split_ifs <;> intro hit <;>
      first
        | exact absurd hit (by decide)
        | (simp only [Intersect.mkHit]; linarith)
  · simp only [Cube.ray_intersect]
    split_ifs <;> intro hit <;>
      first
        | exact absurd hit (by decide)
        | (simp only [Intersect.mkHit]; linarith)

/-- Counterexample to C5 as stated: the ray starting on the unit sphere's
surface and pointing tangentially is reported as a hit at distance `0`,
not `> 0`. (Exact even in `f32`: every intermediate is exactly
representable.) -/
theorem C5_counterexample :
    ((⟨⟨0, 0, 0⟩, 1, matPlain⟩ : Sphere).ray_intersect testEnv
        ⟨1, 0, 0⟩ ⟨0, 1, 0⟩).is_intersecting = true
    ∧ ((⟨⟨0, 0, 0⟩, 1, matPlain⟩ : Sphere).ray_intersect testEnv
        ⟨1, 0, 0⟩ ⟨0, 1, 0⟩).distance = 0 := by
  decide

/-- Witness for C5 at concrete hits: a frontal sphere hit and a diagonal
cube hit. -/
theorem C5_hit_distance_sign_witness :
    0 ≤ ((⟨⟨0, 0, 0⟩, 1, matPlain⟩ : Sphere).ray_intersect testEnv
        ⟨0, 0, 5⟩ ⟨0, 0, -1⟩).distance
    ∧ 0 < ((⟨⟨0, 0, 0⟩, 2, matPlain⟩ : Cube).ray_intersect
        ⟨2, 2, 1⟩ ⟨-1, -1, -1⟩).distance :=
  ⟨(C5_hit_distance_sign testEnv ⟨⟨0, 0, 0⟩, 1, matPlain⟩ ⟨⟨0, 0, 0⟩, 2, matPlain⟩
      ⟨0, 0, 5⟩ ⟨0, 0, -1⟩).1 (by decide),
   (C5_hit_distance_sign testEnv ⟨⟨0, 0, 0⟩, 1, matPlain⟩ ⟨⟨0, 0, 0⟩, 2, matPlain⟩
      ⟨2, 2, 1⟩ ⟨-1, -1, -1⟩).2 (by decide)⟩

/-- The cube of edge 2 at the origin used by the C6 evaluations. -/
def c6cube : Cube := ⟨⟨0, 0, 0⟩, 2, matPlain⟩

/-- The cube hit of the diagonal ray that lands exactly on the edge
`(1, 1, 0)`, where `|x|` and `|y|` tie for the largest component. -/
def c6hit : Intersect := Cube.ray_intersect c6cube ⟨2, 2, 1⟩ ⟨-1, -1, -1⟩

/-- **C6 (amended).** The cube hit normal is the axis whose component of
`point - center` has the largest absolute value, signed by that component,
but ties are broken toward the later axis (Y over X, Z over X and Y), not
X over Y over Z: the X axis is selected only when strictly largest on both
comparisons, and Y only when strictly larger than Z. -/
theorem C6_cube_normal_axis (c : Cube) (o d : Vec3) (lp : Vec3) :
    ((c.ray_intersect o d).is_intersecting = true →
      (c.ray_intersect o d).normal = cubeNormal ((c.ray_intersect o d).point - c.center))
    ∧ (|lp.x| > |lp.y| ∧ |lp.x| > |lp.z| →
        cubeNormal lp = ⟨signQ lp.x, 0, 0⟩
          ∧ |lp.x| = max |lp.x| (max |lp.y| |lp.z|))
    ∧ (¬(|lp.x| > |lp.y| ∧ |lp.x| > |lp.z|) → |lp.y| > |lp.z| →
        cubeNormal lp = ⟨0, signQ lp.y, 0⟩
          ∧ |lp.y| = max |lp.x| (max |lp.y| |lp.z|))
    ∧ (¬(|lp.x| > |lp.y| ∧ |lp.x| > |lp.z|) → ¬(|lp.y| > |lp.z|) →
        cubeNormal lp = ⟨0, 0, signQ lp.z⟩
          ∧ |lp.z| = max |lp.x| (max |lp.y| |lp.z|)) := by
  refine ⟨?_, ?_, ?_, ?_⟩
  · simp only [Cube.ray_intersect]
    split_ifs <;> intro hit <;>
      first
        | exact absurd hit (by decide)
        | (simp only [Intersect.mkHit]; try rfl)
  · intro h
    refine ⟨by simp only [cubeNormal, if_pos h], ?_⟩
    exact (max_eq_left (max_le h.1.le h.2.le)).symm
  · intro h1 h2
    refine ⟨by simp only [cubeNormal, if_neg h1, if_pos h2], ?_⟩
    have hxy : |lp.x| ≤ |lp.y| := by
      rcases not_and_or.mp h1 with hx | hz
      · exact le_of_not_lt hx
      · exact le_trans (le_of_not_lt hz) h2.le
    rw [max_eq_left h2.le, max_eq_right hxy]
  · intro h1 h2
    refine ⟨by simp only [cubeNormal, if_neg h1, if_neg h2], ?_⟩
    have hyz : |lp.y| ≤ |lp.z| := le_of_not_lt h2
    have hxz : |lp.x| ≤ |lp.z| := by
      rcases not_and_or.mp h1 with hx | hz
      · exact le_trans (le_of_not_lt hx) hyz
      · exact le_of_not_lt hz
    rw [max_eq_right hyz, max_eq_right hxz]

/-- Counterexample to C6 as stated: at the edge hit `(1, 1, 0)` the X and Y
components tie for the largest absolute value, and the code returns the Y
face normal `(0, 1, 0)`, not the X-priority normal `(1, 0, 0)` the claim
prescribes. -/
theorem C6_counterexample :
    c6hit.is_intersecting = true
    ∧ c6hit.point - c6cube.center = ⟨1, 1, 0⟩
    ∧ |(c6hit.point - c6cube.center).x| = |(c6hit.point - c6cube.center).y|
    ∧ |(c6hit.point - c6cube.center).x| > |(c6hit.point - c6cube.center).z|
    ∧ c6hit.normal = ⟨0, 1, 0⟩
    ∧ c6hit.normal ≠ ⟨signQ (c6hit.point - c6cube.center).x, 0, 0⟩ := by
  decide

/-- Witness for C6 at concrete inputs: the edge hit satisfies the
normal-selection rule, and the tied local point `(1, 1, 0)` selects the Y
axis. -/
theorem C6_cube_normal_axis_witness :
    (Cube.ray_intersect c6cube ⟨2, 2, 1⟩ ⟨-1, -1, -1⟩).normal
      = cubeNormal ((Cube.ray_intersect c6cube ⟨2, 2, 1⟩ ⟨-1, -1, -1⟩).point - c6cube.center)
    ∧ (cubeNormal ⟨1, 1, 0⟩ = ⟨0, signQ (1 : ℚ), 0⟩
        ∧ |(1 : ℚ)| = max |(1 : ℚ)| (max |(1 : ℚ)| |(0 : ℚ)|)) :=
  ⟨(C6_cube_normal_axis c6cube ⟨2, 2, 1⟩ ⟨-1, -1, -1⟩ ⟨1, 1, 0⟩).1 (by decide),
   (C6_cube_normal_axis c6cube ⟨2, 2, 1⟩ ⟨-1, -1, -1⟩ ⟨1, 1, 0⟩).2.2.1 (by decide) (by decide)⟩

/-- **C8 (amended).** For every radius `0 < R < 5`, the sphere of radius `R`
at the origin hit by the ray from `(0,0,5)` toward `(0,0,-1)` reports
distance `5 - R`, hit point `(0,0,R)`, and normal `(0,0,1)` (unit, along
`+z`); the normal equals the hit point exactly when `R = 1`. -/
theorem C8_axial_sphere_intersection (env : Env) (m : Material) (R : ℚ)
    (h0 : 0 < R) (h5 : R < 5) :
    ((⟨⟨0, 0, 0⟩, R, m⟩ : Sphere).ray_intersect env ⟨0, 0, 5⟩ ⟨0, 0, -1⟩).is_intersecting
        = true
    ∧ ((⟨⟨0, 0, 0⟩, R, m⟩ : Sphere).ray_intersect env ⟨0, 0, 5⟩ ⟨0, 0, -1⟩).distance
        = 5 - R
    ∧ ((⟨⟨0, 0, 0⟩, R, m⟩ : Sphere).ray_intersect env ⟨0, 0, 5⟩ ⟨0, 0, -1⟩).point
        = ⟨0, 0, R⟩
    ∧ ((⟨⟨0, 0, 0⟩, R, m⟩ : Sphere).ray_intersect env ⟨0, 0, 5⟩ ⟨0, 0, -1⟩).normal
        = ⟨0, 0, 1⟩
    ∧ (((⟨⟨0, 0, 0⟩, R, m⟩ : Sphere).ray_intersect env ⟨0, 0, 5⟩ ⟨0, 0, -1⟩).normal
        = ((⟨⟨0, 0, 0⟩, R, m⟩ : Sphere).ray_intersect env ⟨0, 0, 5⟩ ⟨0, 0, -1⟩).point
        ↔ R = 1) := by
  have hRne : R ≠ 0 := ne_of_gt h0
  have hsq : fsqrt (R * R) = R := fsqrt_mul_self R h0.le
  have hofive : ¬ ((5 : ℚ) - R < 0) := by linarith
  have hd2 : ¬ ((0 : ℚ) > R * R) := not_lt.mpr (mul_self_nonneg R)
  refine ⟨?_, ?_, ?_, ?_, ?_⟩ <;>
    simp only [Sphere.ray_intersect, Vec3.sub_def, Vec3.dot_def, Vec3.add_def,
      Vec3.mulQ_def, Vec3.normalize, Vec3.magnitude, Intersect.mkHit] <;>
    norm_num [hsq, hofive, hd2, hRne]
  constructor <;> intro hcase <;> linarith

/-- Counterexample to C8 as stated: at radius `R = 2` the returned normal is
the unit vector `(0,0,1)`, which differs from the hit point `(0,0,2)`. -/
theorem C8_counterexample :
    ((⟨⟨0, 0, 0⟩, 2, matPlain⟩ : Sphere).ray_intersect testEnv
        ⟨0, 0, 5⟩ ⟨0, 0, -1⟩).distance = 5 - 2
    ∧ ((⟨⟨0, 0, 0⟩, 2, matPlain⟩ : Sphere).ray_intersect testEnv
        ⟨0, 0, 5⟩ ⟨0, 0, -1⟩).normal
      ≠ ((⟨⟨0, 0, 0⟩, 2, matPlain⟩ : Sphere).ray_intersect testEnv
        ⟨0, 0, 5⟩ ⟨0, 0, -1⟩).point := by
  decide

/-- Witness for C8 at `R = 3`. -/
theorem C8_axial_sphere_intersection_witness :
    ((⟨⟨0, 0, 0⟩, 3, matPlain⟩ : Sphere).ray_intersect testEnv
        ⟨0, 0, 5⟩ ⟨0, 0, -1⟩).distance = 5 - 3
    ∧ ((⟨⟨0, 0, 0⟩, 3, matPlain⟩ : Sphere).ray_intersect testEnv
        ⟨0, 0, 5⟩ ⟨0, 0, -1⟩).normal = ⟨0, 0, 1⟩ :=
  ⟨(C8_axial_sphere_intersection testEnv matPlain 3 (by decide) (by decide)).2.1,
   (C8_axial_sphere_intersection testEnv matPlain 3 (by decide) (by decide)).2.2.2.1⟩

/-- On nonnegative inputs, the truncation-based `fract` agrees with the
floor-based fractional part. -/
theorem rfract_nonneg_eq (q : ℚ) (h : 0 ≤ q) : rfract q = Int.fract q := by
  rw [rfract, rtrunc, if_pos h, Int.fract]

/-- **C7 (amended).** Sampling is 1-periodic in `u` and `v` for checker and
stripes textures whose scale is an even integer (for all coordinates), and
for image textures with a natural-number scale at nonnegative coordinates.
(As stated for all kinds and scales the claim fails: a checker of scale 1
flips its parity under `u ↦ u + 1` — see the counterexample — the
sine-based marble pattern has period `2π/scale`, not 1, and the
sign-preserving `fract` breaks image periodicity across 0.) -/
theorem C7_periodicity_amended (env : Env) (c1 c2 : Color) (k : ℤ) (n : ℕ)
    (ax : Axis) (id : ℕ) (u v : ℚ) :
    (Texture.sample env (.checker c1 c2 ((2 * k : ℤ) : ℚ)) (u + 1) v
        = Texture.sample env (.checker c1 c2 ((2 * k : ℤ) : ℚ)) u v
      ∧ Texture.sample env (.checker c1 c2 ((2 * k : ℤ) : ℚ)) u (v + 1)
        = Texture.sample env (.checker c1 c2 ((2 * k : ℤ) : ℚ)) u v)
    ∧ (Texture.sample env (.stripes c1 c2 ((2 * k : ℤ) : ℚ) ax) (u + 1) v
        = Texture.sample env (.stripes c1 c2 ((2 * k : ℤ) : ℚ) ax) u v
      ∧ Texture.sample env (.stripes c1 c2 ((2 * k : ℤ) : ℚ) ax) u (v + 1)
        = Texture.sample env (.stripes c1 c2 ((2 * k : ℤ) : ℚ) ax) u v)
    ∧ (0 ≤ u →
        Texture.sample env (.image id (n : ℚ)) (u + 1) v
          = Texture.sample env (.image id (n : ℚ)) u v)
    ∧ (0 ≤ v →
        Texture.sample env (.image id (n : ℚ)) u (v + 1)
          = Texture.sample env (.image id (n : ℚ)) u v) := by
  have hshift : ∀ w : ℚ, ⌊(w + 1) * ((2 * k : ℤ) : ℚ)⌋ = ⌊w * ((2 * k : ℤ) : ℚ)⌋ + 2 * k := by
    intro w
    have harith : (w + 1) * ((2 * k : ℤ) : ℚ) = w * ((2 * k : ℤ) : ℚ) + ((2 * k : ℤ) : ℚ) := by
      ring
    rw [harith, Int.floor_add_int]
  have hfract : ∀ w : ℚ, 0 ≤ w → rfract ((w + 1) * (n : ℚ)) = rfract (w * (n : ℚ)) := by
    intro w hw
    have harith : (w + 1) * (n : ℚ) = w * (n : ℚ) + ((n : ℤ) : ℚ) := by
      push_cast
      ring
    have hnn : 0 ≤ w * (n : ℚ) := mul_nonneg hw (by positivity)
    have hnn1 : 0 ≤ w * (n : ℚ) + ((n : ℤ) : ℚ) := by positivity
    rw [harith, rfract_nonneg_eq _ hnn1, rfract_nonneg_eq _ hnn, Int.fract_add_int]
  refine ⟨⟨?_, ?_⟩, ⟨?_, ?_⟩, ?_, ?_⟩
  · simp only [Texture.sample, hshift]
    have hmod : ((⌊u * ((2 * k : ℤ) : ℚ)⌋ + 2 * k + ⌊v * ((2 * k : ℤ) : ℚ)⌋) % 2 = 0)
        ↔ ((⌊u * ((2 * k : ℤ) : ℚ)⌋ + ⌊v * ((2 * k : ℤ) : ℚ)⌋) % 2 = 0) := by
      omega
    rw [if_congr hmod rfl rfl]
  · simp only [Texture.sample]
    have hmod : ((⌊u * ((2 * k : ℤ) : ℚ)⌋ + ⌊(v + 1) * ((2 * k : ℤ) : ℚ)⌋) % 2 = 0)
        ↔ ((⌊u * ((2 * k : ℤ) : ℚ)⌋ + ⌊v * ((2 * k : ℤ) : ℚ)⌋) % 2 = 0) := by
      rw [hshift v]
      omega
    rw [if_congr hmod rfl rfl]
  · cases ax
    · simp only [Texture.sample]
      have hmod : ((⌊(u + 1) * ((2 * k : ℤ) : ℚ)⌋) % 2 = 0)
          ↔ ((⌊u * ((2 * k : ℤ) : ℚ)⌋) % 2 = 0) := by
        rw [hshift u]
        omega
      rw [if_congr hmod rfl rfl]
    · rfl
  · cases ax
    · rfl
    · simp only [Texture.sample]
      have hmod : ((⌊(v + 1) * ((2 * k : ℤ) : ℚ)⌋) % 2 = 0)
          ↔ ((⌊v * ((2 * k : ℤ) : ℚ)⌋) % 2 = 0) := by
        rw [hshift v]
        omega
      rw [if_congr hmod rfl rfl]
  · intro hu
    simp only [Texture.sample, hfract u hu]
  · intro hv
    simp only [Texture.sample, hfract v hv]

/-- Counterexample to C7 as stated: a checker texture of scale 1 with two
distinct colors changes value under `u ↦ u + 1`. -/
theorem C7_counterexample :
    Texture.sample testEnv (.checker (Color.new 1 1 1) (Color.new 0 0 0) 1) (0 + 1) 0
      ≠ Texture.sample testEnv (.checker (Color.new 1 1 1) (Color.new 0 0 0) 1) 0 0 := by
  decide

/-- Witness for C7 at concrete inputs: an even-scale checker at a negative
coordinate (no hypothesis needed there) and an image texture discharging the
nonnegativity hypothesis. -/
theorem C7_periodicity_amended_witness :
    Texture.sample testEnv (.checker (Color.new 1 2 3) (Color.new 4 5 6) ((2 * (1 : ℤ) : ℤ) : ℚ))
        (-3/2 + 1) (1/3)
      = Texture.sample testEnv (.checker (Color.new 1 2 3) (Color.new 4 5 6) ((2 * (1 : ℤ) : ℤ) : ℚ))
        (-3/2) (1/3)
    ∧ Texture.sample testEnv (.image 0 ((2 : ℕ) : ℚ)) (1/2 + 1) (1/3)
      = Texture.sample testEnv (.image 0 ((2 : ℕ) : ℚ)) (1/2) (1/3) :=
  ⟨(C7_periodicity_amended testEnv (Color.new 1 2 3) (Color.new 4 5 6) 1 2 Axis.U 0
      (-3/2) (1/3)).1.1,
   (C7_periodicity_amended testEnv (Color.new 1 2 3) (Color.new 4 5 6) 1 2 Axis.U 0
      (1/2) (1/3)).2.2.1 (by decide)⟩

/-- A material whose stored reflectivity `2` exceeds the clamp range. -/
def matRefl2 : Material := { matPlain with reflectivity := 2 }

/-- One-cube scene whose material has out-of-range stored reflectivity. -/
def sceneC3 : List Object := [Object.cube ⟨⟨0, 0, 0⟩, 2, matRefl2⟩]

/-- **C3 (amended).** For every hit taken by `cast_ray`, the returned color
is `local * base_w + reflectionColor * r + refractionColor * t` plus the
material's emission when present, where `r` and `t` are the stored
reflectivity and transparency *clamped to `[0, 1]`* and
`base_w = max(0, 1 - r - t)` uses the clamped values as well. -/
theorem C3_composite_clamped (env : Env) (objects : List Object) (lights : List Light)
    (ray_origin ray_direction : Vec3) (depth : ℕ)
    (hdep : depth ≤ MAX_RAY_DEPTH)
    (hhit : (closestHit env objects ray_origin ray_direction).is_intersecting = true) :
    cast_ray env objects lights ray_origin ray_direction depth
      = emissionAdd (closestHit env objects ray_origin ray_direction).material
          (localColor env (closestHit env objects ray_origin ray_direction) lights objects
              ray_direction
            * max (1
                - clampQ (closestHit env objects ray_origin
                    ray_direction).material.reflectivity 0 1
                - clampQ (closestHit env objects ray_origin
                    ray_direction).material.transparency 0 1) 0
          + reflectionComponent env objects lights ray_origin ray_direction depth
            * clampQ (closestHit env objects ray_origin ray_direction).material.reflectivity 0 1
          + refractionComponent env objects lights ray_origin ray_direction depth
            * clampQ (closestHit env objects ray_origin
                ray_direction).material.transparency 0 1) := by
  have hd : ¬ depth > MAX_RAY_DEPTH := by omega
  rw [cast_ray_eq, if_neg hd]
  simp only [hhit, Bool.true_eq_false, if_false]

set_option maxRecDepth 8000 in
/-- Counterexample to C3 as stated: with stored reflectivity `2` the code
weighs the reflection color by the clamped value `1`, not by the stored
value `2` the claim prescribes, so the returned color differs from the
claim's formula evaluated with the stored weights. -/
theorem C3_counterexample :
    cast_ray testEnv sceneC3 [] ⟨2, 3/2, 3/2⟩ ⟨-1, -2, -2⟩ 0
      ≠ emissionAdd (closestHit testEnv sceneC3 ⟨2, 3/2, 3/2⟩ ⟨-1, -2, -2⟩).material
          (localColor testEnv (closestHit testEnv sceneC3 ⟨2, 3/2, 3/2⟩ ⟨-1, -2, -2⟩) []
              sceneC3 ⟨-1, -2, -2⟩
            * max (1
                - (closestHit testEnv sceneC3 ⟨2, 3/2, 3/2⟩ ⟨-1, -2, -2⟩).material.reflectivity
                - (closestHit testEnv sceneC3 ⟨2, 3/2, 3/2⟩ ⟨-1, -2, -2⟩).material.transparency) 0
          + reflectionComponent testEnv sceneC3 [] ⟨2, 3/2, 3/2⟩ ⟨-1, -2, -2⟩ 0
            * (closestHit testEnv sceneC3 ⟨2, 3/2, 3/2⟩ ⟨-1, -2, -2⟩).material.reflectivity
          + refractionComponent testEnv sceneC3 [] ⟨2, 3/2, 3/2⟩ ⟨-1, -2, -2⟩ 0
            * (closestHit testEnv sceneC3 ⟨2, 3/2, 3/2⟩ ⟨-1, -2, -2⟩).material.transparency) := by
  decide

/-- Witness for C3 at the same concrete hit: the clamped composite equation
holds there. -/
theorem C3_composite_clamped_witness :
    cast_ray testEnv sceneC3 [] ⟨2, 3/2, 3/2⟩ ⟨-1, -2, -2⟩ 0
      = emissionAdd (closestHit testEnv sceneC3 ⟨2, 3/2, 3/2⟩ ⟨-1, -2, -2⟩).material
          (localColor testEnv (closestHit testEnv sceneC3 ⟨2, 3/2, 3/2⟩ ⟨-1, -2, -2⟩) []
              sceneC3 ⟨-1, -2, -2⟩
            * max (1
                - clampQ (closestHit testEnv sceneC3
                    ⟨2, 3/2, 3/2⟩ ⟨-1, -2, -2⟩).material.reflectivity 0 1
                - clampQ (closestHit testEnv sceneC3
                    ⟨2, 3/2, 3/2⟩ ⟨-1, -2, -2⟩).material.transparency 0 1) 0
          + reflectionComponent testEnv sceneC3 [] ⟨2, 3/2, 3/2⟩ ⟨-1, -2, -2⟩ 0
            * clampQ (closestHit testEnv sceneC3
                ⟨2, 3/2, 3/2⟩ ⟨-1, -2, -2⟩).material.reflectivity 0 1
          + refractionComponent testEnv sceneC3 [] ⟨2, 3/2, 3/2⟩ ⟨-1, -2, -2⟩ 0
            * clampQ (closestHit testEnv sceneC3
                ⟨2, 3/2, 3/2⟩ ⟨-1, -2, -2⟩).material.transparency 0 1) :=
  C3_composite_clamped testEnv sceneC3 [] ⟨2, 3/2, 3/2⟩ ⟨-1, -2, -2⟩ 0
    (by decide) (by decide)

/-- A ray from a point strictly inside a sphere always meets the surface at
a positive parameter (real-geometry fact used to assess C10). -/
theorem sphere_exit_root (lx ly lz dx dy dz r : ℝ)
    (hd : dx * dx + dy * dy + dz * dz = 1)
    (hin : lx * lx + ly * ly + lz * lz < r * r) :
    ∃ t : ℝ, 0 < t ∧
      (t * dx - lx) * (t * dx - lx) + (t * dy - ly) * (t * dy - ly)
        + (t * dz - lz) * (t * dz - lz) = r * r := by
  have hD : 0 < (lx * dx + ly * dy + lz * dz) * (lx * dx + ly * dy + lz * dz)
      + r * r - (lx * lx + ly * ly + lz * lz) := by
    nlinarith [mul_self_nonneg (lx * dx + ly * dy + lz * dz)]
  have hsq : Real.sqrt ((lx * dx + ly * dy + lz * dz) * (lx * dx + ly * dy + lz * dz)
        + r * r - (lx * lx + ly * ly + lz * lz))
      * Real.sqrt ((lx * dx + ly * dy + lz * dz) * (lx * dx + ly * dy + lz * dz)
        + r * r - (lx * lx + ly * ly + lz * lz))
      = (lx * dx + ly * dy + lz * dz) * (lx * dx + ly * dy + lz * dz)
        + r * r - (lx * lx + ly * ly + lz * lz) :=
    Real.mul_self_sqrt hD.le
  have habs : |lx * dx + ly * dy + lz * dz|
      < Real.sqrt ((lx * dx + ly * dy + lz * dz) * (lx * dx + ly * dy + lz * dz)
        + r * r - (lx * lx + ly * ly + lz * lz)) := by
    have h1 := Real.sqrt_lt_sqrt
      (mul_self_nonneg (lx * dx + ly * dy + lz * dz))
      (show (lx * dx + ly * dy + lz * dz) * (lx * dx + ly * dy + lz * dz)
          < (lx * dx + ly * dy + lz * dz) * (lx * dx + ly * dy + lz * dz)
            + r * r - (lx * lx + ly * ly + lz * lz) from by linarith)
    rwa [Real.sqrt_mul_self_eq_abs] at h1
  refine ⟨(lx * dx + ly * dy + lz * dz)
      + Real.sqrt ((lx * dx + ly * dy + lz * dz) * (lx * dx + ly * dy + lz * dz)
        + r * r - (lx * lx + ly * ly + lz * lz)), ?_, ?_⟩
  · have hge := neg_abs_le (lx * dx + ly * dy + lz * dz)
    linarith
  · linear_combination
      (((lx * dx + ly * dy + lz * dz)
        + Real.sqrt ((lx * dx + ly * dy + lz * dz) * (lx * dx + ly * dy + lz * dz)
          + r * r - (lx * lx + ly * ly + lz * lz)))
        * ((lx * dx + ly * dy + lz * dz)
        + Real.sqrt ((lx * dx + ly * dy + lz * dz) * (lx * dx + ly * dy + lz * dz)
          + r * r - (lx * lx + ly * ly + lz * lz)))) * hd + hsq

/-- **C10.** For every sphere, ray origin strictly inside it, and unit
direction with negative closest-approach parameter `tca`, the intersection
routine reports no hit, even though the ray geometrically exits the
sphere's surface at a strictly positive (real) distance. -/
theorem C10_inside_negative_tca_misses (env : Env) (sp : Sphere) (o d : Vec3)
    (hunit : d.dot d = 1)
    (hin : (sp.center - o).dot (sp.center - o) < sp.radius * sp.radius)
    (htca : (sp.center - o).dot d < 0) :
    (sp.ray_intersect env o d).is_intersecting = false
    ∧ ∃ t : ℝ, 0 < t ∧
        (((o.x : ℝ) + t * (d.x : ℝ)) - (sp.center.x : ℝ))
            * (((o.x : ℝ) + t * (d.x : ℝ)) - (sp.center.x : ℝ))
          + (((o.y : ℝ) + t * (d.y : ℝ)) - (sp.center.y : ℝ))
            * (((o.y : ℝ) + t * (d.y : ℝ)) - (sp.center.y : ℝ))
          + (((o.z : ℝ) + t * (d.z : ℝ)) - (sp.center.z : ℝ))
            * (((o.z : ℝ) + t * (d.z : ℝ)) - (sp.center.z : ℝ))
          = (sp.radius : ℝ) * (sp.radius : ℝ) := by
  constructor
  · simp only [Sphere.ray_intersect]
    rw [if_pos htca]
    rfl
  · have hd' : ((d.x : ℝ)) * (d.x : ℝ) + (d.y : ℝ) * (d.y : ℝ) + (d.z : ℝ) * (d.z : ℝ) = 1 := by
      have h0 := hunit
      rw [Vec3.dot_def] at h0
      have h1 : ((d.x * d.x + d.y * d.y + d.z * d.z : ℚ) : ℝ) = ((1 : ℚ) : ℝ) := by
        exact_mod_cast h0
      push_cast at h1
      linarith
    have hin' : ((sp.center.x : ℝ) - (o.x : ℝ)) * ((sp.center.x : ℝ) - (o.x : ℝ))
        + ((sp.center.y : ℝ) - (o.y : ℝ)) * ((sp.center.y : ℝ) - (o.y : ℝ))
        + ((sp.center.z : ℝ) - (o.z : ℝ)) * ((sp.center.z : ℝ) - (o.z : ℝ))
        < (sp.radius : ℝ) * (sp.radius : ℝ) := by
      have h0 := hin
      rw [Vec3.sub_def, Vec3.dot_def] at h0
      have h1 : (((sp.center.x - o.x) * (sp.center.x - o.x)
          + (sp.center.y - o.y) * (sp.center.y - o.y)
          + (sp.center.z - o.z) * (sp.center.z - o.z) : ℚ) : ℝ)
          < ((sp.radius * sp.radius : ℚ) : ℝ) := by
        exact_mod_cast h0
      push_cast at h1
      linarith
    obtain ⟨t, ht, heq⟩ := sphere_exit_root
      ((sp.center.x : ℝ) - (o.x : ℝ)) ((sp.center.y : ℝ) - (o.y : ℝ))
      ((sp.center.z : ℝ) - (o.z : ℝ)) (d.x : ℝ) (d.y : ℝ) (d.z : ℝ) (sp.radius : ℝ)
      hd' hin'
    exact ⟨t, ht, by linear_combination heq⟩

/-- Witness for C10: origin `(0, 0, 1/2)` inside the unit sphere with the
direction `(0, 0, 1)` whose `tca` is `-1/2`. -/
theorem C10_inside_negative_tca_misses_witness :
    ((⟨⟨0, 0, 0⟩, 1, matPlain⟩ : Sphere).ray_intersect testEnv
        ⟨0, 0, 1/2⟩ ⟨0, 0, 1⟩).is_intersecting = false
    ∧ ∃ t : ℝ, 0 < t ∧
        ((((0 : ℚ) : ℝ) + t * ((0 : ℚ) : ℝ)) - ((0 : ℚ) : ℝ))
            * ((((0 : ℚ) : ℝ) + t * ((0 : ℚ) : ℝ)) - ((0 : ℚ) : ℝ))
          + ((((0 : ℚ) : ℝ) + t * ((0 : ℚ) : ℝ)) - ((0 : ℚ) : ℝ))
            * ((((0 : ℚ) : ℝ) + t * ((0 : ℚ) : ℝ)) - ((0 : ℚ) : ℝ))
          + ((((1/2 : ℚ) : ℝ) + t * ((1 : ℚ) : ℝ)) - ((0 : ℚ) : ℝ))
            * ((((1/2 : ℚ) : ℝ) + t * ((1 : ℚ) : ℝ)) - ((0 : ℚ) : ℝ))
          = (((1 : ℚ) : ℝ)) * (((1 : ℚ) : ℝ)) :=
  C10_inside_negative_tca_misses testEnv ⟨⟨0, 0, 0⟩, 1, matPlain⟩ ⟨0, 0, 1/2⟩ ⟨0, 0, 1⟩
    (by decide) (by decide) (by decide)

end Raytracer
